import Mathlib

/-!
Verification of the static file server with header injection
(src/tools/http-server.py).

The script subclasses a standard static-file request handler and overrides
two hook points: response-header finalization (it appends two cross-origin
isolation headers) and content-type resolution (it forces two extension
mappings before delegating to the default resolver).  At module level it
fixes the port to 8000, changes directory to ".", binds a TCP server and
serves forever after printing one startup line.

The embedding below models the header buffer as an ordered list of
name/value pairs, the superclass hooks as function parameters (the
superclass is part of the language's standard library, not this
repository), and the module-level startup sequence as a function from an
externally supplied bind outcome and an initial process state to a final
process state (the state reached when the accept loop is entered) or a
propagated error.
-/

namespace HttpServer

/-- A response header: a name/value pair.  Duplicates are allowed, order
matters, matching HTTP header-block semantics. -/
abbrev Header := String × String

/-- The first injected header, from the source line
`self.send_header('Cross-Origin-Opener-Policy', 'same-origin')`. -/
def coopHeader : Header := ("Cross-Origin-Opener-Policy", "same-origin")

/-- The second injected header, from the source line
`self.send_header('Cross-Origin-Embedder-Policy', 'require-corp')`. -/
def coepHeader : Header := ("Cross-Origin-Embedder-Policy", "require-corp")

/-- `send_header` appends one header to the buffer of headers assembled so
far, as the base handler's `send_header` appends to `_headers_buffer`. -/
def send_header (buf : List Header) (h : Header) : List Header := buf ++ [h]

/-- The superclass `end_headers`: it terminates the header block and
flushes it; the finalized header block is exactly the assembled buffer. -/
def superEndHeaders (buf : List Header) : List Header := buf

/-- `CustomRequestHandler.end_headers`: append the two cross-origin
isolation headers to whatever has been assembled, then delegate to the
superclass to finalize the block. -/
def end_headers (buf : List Header) : List Header :=
  superEndHeaders (send_header (send_header buf coopHeader) coepHeader)

/-- An HTTP response as observed on the wire: status code and the
finalized header block. -/
structure Response where
  statusCode : Nat
  headers : List Header
deriving Repr, DecidableEq

/-- The response the server sends for a given request path and status
code, parameterized by whatever header assembly the base static-file
handler performs for that path and status (success and error branches
alike): every response finalizes its header block through
`end_headers`. -/
def serverResponse (assemble : String → Nat → List Header)
    (path : String) (status : Nat) : Response :=
  ⟨status, end_headers (assemble path status)⟩

/-- The exact, case-sensitive suffix test used by the source
(`path.endswith(...)`), on the underlying character sequences. -/
def endswith (path suffix : String) : Bool :=
  suffix.data.isSuffixOf path.data

/-- `CustomRequestHandler.guess_type`, parameterized by the superclass
resolver `superGuess` (the standard library's default content-type
inference): force `.html` and `.js`, otherwise delegate. -/
def guess_type (superGuess : String → String) (path : String) : String :=
  if endswith path ".html" then "text/html"
  else if endswith path ".js" then "text/javascript"
  else superGuess path

/-- The module-level constant `port = 8000`. -/
def port : Nat := 8000

/-- The module-level constant `web_dir = "."`. -/
def web_dir : String := "."

/-- An OS-level error raised while creating the TCP server, such as the
address being already in use. -/
inductive OSErr where
  | addrInUse
  | permissionDenied
  | other (code : Nat)
deriving Repr, DecidableEq

/-- Observable process state: current working directory (as path
components), lines written to standard output, and the port of the bound
listening socket, if any. -/
structure ProcState where
  cwd : List String
  stdout : List String
  boundPort : Option Nat
deriving Repr, DecidableEq

/-- The slash-separated components of a path. -/
def pathComponents (dir : String) : List String :=
  (dir.data.splitOn '/').map List.asString

/-- Resolution of a relative path against a working directory, component
by component: `.` keeps the directory, `..` pops one component, anything
else descends. -/
def resolveChdir (cwd : List String) (dir : String) : List String :=
  (pathComponents dir).foldl
    (fun acc c =>
      if c = "." then acc
      else if c = ".." then acc.dropLast
      else acc ++ [c]) cwd

/-- `os.chdir(dir)`: the working directory becomes the resolution of
`dir` against the current one; nothing else changes. -/
def os_chdir (s : ProcState) (dir : String) : ProcState :=
  { s with cwd := resolveChdir s.cwd dir }

/-- The one startup line, from `print("Serving at port", port)`. -/
def servingLine : String := "Serving at port " ++ toString port

/-- The module-level startup sequence of the script, given the process's
invocation arguments (which the script never consults — it imports no
argument-reading facility), the outcome of the OS-level bind performed
when the TCP server is created, and the initial process state.  It
changes directory to `web_dir`, then creates the server: a bind error
propagates (there is no handler around the `with` statement); on success
it prints the startup line and enters `serve_forever`, so the result is
the state at the moment the accept loop starts, before any request is
handled. -/
def runScript (argv : List String) (bind : Except OSErr Unit)
    (s0 : ProcState) : Except OSErr ProcState :=
  let _ := argv
  let s1 := os_chdir s0 web_dir
  match bind with
  | .error e => .error e
  | .ok _ =>
      .ok { s1 with
            boundPort := some port
            stdout := s1.stdout ++ [servingLine] }

/-- Exit status of the interpreter running the script: an uncaught
exception terminates the process with a nonzero status; otherwise the
process never exits on its own (the accept loop is unbounded), so the
status on external termination is the default 0. -/
def processExitCode (r : Except OSErr ProcState) : Nat :=
  match r with
  | .ok _ => 0
  | .error _ => 1

/-- Interpretation of a decimal numeral: `none` unless the string is a
nonempty run of digits. -/
def parseNat? (s : String) : Option Nat :=
  if s.data.isEmpty then none
  else if s.data.all Char.isDigit then
    some (s.data.foldl (fun n c => 10 * n + (c.toNat - 48)) 0)
  else none

/-- Modelled from the spec: the repository's other script variant (not
present under src/) reads an optional single integer invocation argument
as the listening port, "defaulting to 8000 if absent or
absent-and-invalid"; the TCP listener is then bound to that port. -/
def portFromArgs (args : List String) : Nat :=
  match args with
  | [a] => (parseNat? a).getD 8000
  | _ => 8000

/-! Helper lemmas shared by the claim theorems. -/

lemma pathComponents_dot : pathComponents web_dir = ["."] := by decide

lemma resolveChdir_dot (cwd : List String) : resolveChdir cwd web_dir = cwd := by
  simp [resolveChdir, pathComponents_dot]

lemma os_chdir_web_dir (s : ProcState) : os_chdir s web_dir = s := by
  cases s
  simp [os_chdir, resolveChdir_dot]

lemma endswith_suffix {p s : String} (h : endswith p s = true) :
    s.data <:+ p.data := by
  simpa [endswith] using h

lemma not_endswith_html_of_js {p : String} (h : endswith p ".js" = true) :
    endswith p ".html" = false := by
  by_contra hne
  have hhtml : endswith p ".html" = true := by
    cases hh : endswith p ".html" with
    | true => rfl
    | false => exact absurd hh hne
  have h1 := endswith_suffix h
  have h2 := endswith_suffix hhtml
  rcases List.suffix_or_suffix_of_suffix h1 h2 with hc | hc
  · exact absurd hc (by decide)
  · exact absurd hc (by decide)

/-- Case folding of a path, character by character, as the usual
string lowering does on ASCII. -/
def lowerStr (s : String) : String :=
  (s.data.map Char.toLower).asString

/-! The claim theorems. -/

/-- C1: for every HTTP response the server sends — any request path, any
status code, success and error responses alike — the finalized header
block contains both `Cross-Origin-Opener-Policy: same-origin` and
`Cross-Origin-Embedder-Policy: require-corp`, because `end_headers`
appends them before the block is finalized. -/
theorem c1_cross_origin_headers_always_present
    (assemble : String → Nat → List Header) (path : String) (status : Nat) :
    coopHeader ∈ (serverResponse assemble path status).headers ∧
    coepHeader ∈ (serverResponse assemble path status).headers := by
  simp [serverResponse, end_headers, send_header, superEndHeaders]

/-- C2: content-type resolution returns exactly `text/html` for every
path ending in `.html` and exactly `text/javascript` for every path
ending in `.js`, regardless of what the default inference
(`superGuess`) would produce. -/
theorem c2_forced_content_types
    (superGuess : String → String) (path : String) :
    (endswith path ".html" = true → guess_type superGuess path = "text/html") ∧
    (endswith path ".js" = true → guess_type superGuess path = "text/javascript") := by
  constructor
  · intro h
    simp [guess_type, h]
  · intro h
    simp [guess_type, h, not_endswith_html_of_js h]

/-- Witness for C2 at concrete inputs. -/
theorem c2_forced_content_types_witness :
    guess_type (fun _ => "application/octet-stream") "index.html" = "text/html" ∧
    guess_type (fun _ => "application/octet-stream") "app.js" = "text/javascript" :=
  ⟨(c2_forced_content_types (fun _ => "application/octet-stream") "index.html").1
      (by decide),
   (c2_forced_content_types (fun _ => "application/octet-stream") "app.js").2
      (by decide)⟩

/-- C3 (modelled from the spec, the argument-reading variant being absent
from src/): invoked with the single argument `9090`, the listening port
used in the bind is 9090, not the default 8000. -/
theorem c3_port_from_invocation_argument :
    portFromArgs ["9090"] = 9090 ∧ portFromArgs ["9090"] ≠ 8000 := by
  decide

/-- C4: invoked with no arguments, the script binds its TCP listening
socket to port 8000. -/
theorem c4_default_port_8000 (s0 : ProcState) :
    ∃ s, runScript [] (Except.ok ()) s0 = Except.ok s ∧
      s.boundPort = some 8000 := by
  refine ⟨_, rfl, ?_⟩
  simp [runScript, port]

/-- C5: on every path ending in neither `.html` nor `.js`, the overridden
`guess_type` returns exactly what the superclass resolver returns: the
override is a pure delegation on all other inputs. -/
theorem c5_delegates_to_default
    (superGuess : String → String) (path : String)
    (h1 : endswith path ".html" = false) (h2 : endswith path ".js" = false) :
    guess_type superGuess path = superGuess path := by
  simp [guess_type, h1, h2]

/-- Witness for C5 at a concrete input. -/
theorem c5_delegates_to_default_witness :
    guess_type (fun _ => "text/css") "style.css" = "text/css" :=
  c5_delegates_to_default (fun _ => "text/css") "style.css"
    (by decide) (by decide)

/-- C6: if creating the TCP server raises an OS-level bind error (port
already in use, permission denied, ...), the error propagates through the
startup sequence unchanged — it is not caught, swallowed or retried — and
the process exits with nonzero status. -/
theorem c6_bind_error_propagates
    (argv : List String) (e : OSErr) (s0 : ProcState) :
    runScript argv (Except.error e) s0 = Except.error e ∧
    processExitCode (runScript argv (Except.error e) s0) ≠ 0 := by
  constructor
  · rfl
  · simp [runScript, processExitCode]

/-- C7: the change of working directory to `.` performed before binding
is behaviorally a no-op: afterwards the process state, its working
directory included, is exactly what it was at process start. -/
theorem c7_chdir_dot_is_noop (s0 : ProcState) :
    os_chdir s0 web_dir = s0 :=
  os_chdir_web_dir s0

/-- C8: on successful bind, startup writes exactly one line to standard
output — the informational line naming the listening port — and nothing
else, before any request is handled (the resulting state is the one at
entry to the accept loop). -/
theorem c8_exactly_one_startup_line
    (argv : List String) (s0 : ProcState) :
    runScript argv (Except.ok ()) s0 =
      Except.ok
        { cwd := s0.cwd
          stdout := s0.stdout ++ ["Serving at port 8000"]
          boundPort := some 8000 } := by
  simp [runScript, os_chdir_web_dir, port, servingLine]
  rfl

/-- C9: the extension matching is case-sensitive: on a path whose suffix
matches `.html` or `.js` only under case folding, neither forced mapping
applies and the result is what the default resolver returns. -/
theorem c9_matching_is_case_sensitive
    (superGuess : String → String) (path : String)
    (_hfold : endswith (lowerStr path) ".html" = true ∨
              endswith (lowerStr path) ".js" = true)
    (h1 : endswith path ".html" = false) (h2 : endswith path ".js" = false) :
    guess_type superGuess path = superGuess path := by
  simp [guess_type, h1, h2]

/-- Witness for C9 at a concrete input. -/
theorem c9_matching_is_case_sensitive_witness :
    endswith (lowerStr "INDEX.HTML") ".html" = true ∧
    endswith "INDEX.HTML" ".html" = false ∧
    guess_type (fun _ => "application/x-default") "INDEX.HTML" =
      "application/x-default" :=
  ⟨by decide, by decide,
   c9_matching_is_case_sensitive (fun _ => "application/x-default") "INDEX.HTML"
     (Or.inl (by decide)) (by decide) (by decide)⟩

/-- C10: every call to `end_headers` appends exactly the two injected
headers, opener-policy first, embedder-policy second, after all headers
already assembled; there is no presence check, so an identical header
already in the buffer ends up duplicated. -/
theorem c10_appends_exactly_two_unconditionally (buf : List Header) :
    end_headers buf = buf ++ [coopHeader, coepHeader] ∧
    (end_headers buf).count coopHeader = buf.count coopHeader + 1 ∧
    (end_headers buf).count coepHeader = buf.count coepHeader + 1 := by
  refine ⟨?_, ?_, ?_⟩ <;>
    simp [end_headers, send_header, superEndHeaders, List.count_append,
      coopHeader, coepHeader, List.count_cons]

end HttpServer
